import Mathlib

/-!
Verification of the Location Acquisition & History Engine.

This file gives a shallow embedding of the engine's code and proves (or
refutes) the stated properties about it.  JavaScript numbers are modelled
exactly: coordinate arithmetic on rationals (`ℚ`) where the code only uses
field operations and comparisons, reals (`ℝ`) where the code calls the
transcendental functions of `Math`, and an explicit NaN-carrying domain
(`JSNum`) where the code tests `isNaN`.  Lists model JavaScript arrays;
`sliceLast n` models `arr.slice(-n)`.
-/

/-- The immutable position sample record (interface LocationData in
src/lib/geolocation.ts): latitude/longitude/accuracy/timestamp plus the
optional altitude/heading/speed fields (absent = not reported). -/
structure LocationData where
  latitude : ℚ
  longitude : ℚ
  accuracy : ℚ
  timestamp : ℚ
  altitude : Option ℚ
  heading : Option ℚ
  speed : Option ℚ
  deriving DecidableEq, Inhabited

/-- The failure record (interface GeolocationError): numeric code and message. -/
structure GeolocationError where
  code : ℕ
  message : String
  deriving DecidableEq

/-- A JavaScript number as seen by code that tests isNaN: either NaN or a
finite value.  (Infinities are excluded from the carrier; they fail the
range comparisons below just as they do in JavaScript, so no statement in
this file depends on them.) -/
inductive JSNum where
  | nan : JSNum
  | val : ℚ → JSNum
  deriving DecidableEq

/-- Model of the isNaN test. -/
def JSNum.jsIsNaN : JSNum → Bool
  | .nan => true
  | .val _ => false

/-- IEEE-style comparison: any comparison involving NaN is false. -/
def JSNum.jsLe : JSNum → JSNum → Bool
  | .val a, .val b => decide (a ≤ b)
  | _, _ => false

/-- IEEE-style comparison: a >= b. -/
def JSNum.jsGe (a b : JSNum) : Bool := JSNum.jsLe b a

/-- arr.slice(-n) for a JavaScript array: the last min(n, length) elements. -/
def sliceLast (n : ℕ) (l : List α) : List α := l.drop (l.length - n)

namespace MapUtils

/-- MapUtils.isValidCoordinate from src/lib/mapUtils.ts:
!isNaN(lat) && !isNaN(lng) && lat >= -90 && lat <= 90 && lng >= -180 && lng <= 180. -/
def isValidCoordinate (latitude longitude : JSNum) : Bool :=
  !latitude.jsIsNaN &&
  !longitude.jsIsNaN &&
  latitude.jsGe (.val (-90)) &&
  latitude.jsLe (.val 90) &&
  longitude.jsGe (.val (-180)) &&
  longitude.jsLe (.val 180)

/-- Result record of MapUtils.calculateBounds: northEast, southWest and
center, each a [lat, lng] pair. -/
structure Bounds where
  northEast : ℚ × ℚ
  southWest : ℚ × ℚ
  center : ℚ × ℚ
  deriving DecidableEq

/-- The four mutable accumulators minLat/maxLat/minLng/maxLng of
calculateBounds. -/
structure BoundsAcc where
  minLat : ℚ
  maxLat : ℚ
  minLng : ℚ
  maxLng : ℚ
  deriving DecidableEq

/-- One iteration of the forEach loop in calculateBounds. -/
def boundsStep (acc : BoundsAcc) (location : LocationData) : BoundsAcc :=
  { minLat := min acc.minLat location.latitude
    maxLat := max acc.maxLat location.latitude
    minLng := min acc.minLng location.longitude
    maxLng := max acc.maxLng location.longitude }

/-- MapUtils.calculateBounds from src/lib/mapUtils.ts: zero box on the empty
list; otherwise min/max over each axis starting from locations[0] and
folding over all locations, with center the midpoint of the extremes. -/
def calculateBounds (locations : List LocationData) : Bounds :=
  if locations.length = 0 then
    { northEast := (0, 0), southWest := (0, 0), center := (0, 0) }
  else
    let l0 := locations.headD default
    let acc := locations.foldl boundsStep
      { minLat := l0.latitude, maxLat := l0.latitude
        minLng := l0.longitude, maxLng := l0.longitude }
    { northEast := (acc.maxLat, acc.maxLng)
      southWest := (acc.minLat, acc.minLng)
      center := ((acc.minLat + acc.maxLat) / 2, (acc.minLng + acc.maxLng) / 2) }

/-- MapUtils.calculateAreaFromLocations from src/lib/mapUtils.ts: 0 for
fewer than 3 points, else the shoelace loop over indices 0..n-1 with
j = (i+1) % n on the raw (latitude, longitude) pairs, then |area| / 2. -/
def calculateAreaFromLocations (locations : List LocationData) : ℚ :=
  if locations.length < 3 then 0
  else
    let n := locations.length
    let area := (List.range n).foldl
      (fun area i =>
        let j := (i + 1) % n
        area + (locations.getD i default).latitude * (locations.getD j default).longitude
             - (locations.getD j default).latitude * (locations.getD i default).longitude)
      0
    |area| / 2

end MapUtils

/-- The shoelace sum as the spec words it: the cyclic sum of
x_i * y_{i+1} - x_{i+1} * y_i over the vertex cycle, the wrap-around edge
being supplied by pairing the list with its rotation by one. -/
def shoelaceSumSpec (l : List LocationData) : ℚ :=
  ((l.zip (l.rotate 1)).map
    (fun pq => pq.1.latitude * pq.2.longitude - pq.2.latitude * pq.1.longitude)).sum

/-- A JSON value, the image of JSON.stringify / preimage of JSON.parse.
Numbers are exact here, matching the fact that JavaScript round-trips
every finite double through JSON text unchanged. -/
inductive Json where
  | null : Json
  | bool : Bool → Json
  | num : ℚ → Json
  | str : String → Json
  | arr : List Json → Json
  | obj : List (String × Json) → Json

/-- What JSON.stringify produces for one LocationData value: the fields in
declaration order, optional fields omitted when undefined. -/
def encodeLocation (d : LocationData) : Json :=
  Json.obj
    ([("latitude", Json.num d.latitude),
      ("longitude", Json.num d.longitude),
      ("accuracy", Json.num d.accuracy),
      ("timestamp", Json.num d.timestamp)]
     ++ (match d.altitude with
         | some a => [("altitude", Json.num a)]
         | none => [])
     ++ (match d.heading with
         | some h => [("heading", Json.num h)]
         | none => [])
     ++ (match d.speed with
         | some s => [("speed", Json.num s)]
         | none => []))

/-- Property lookup on a parsed JSON object. -/
def jsonField (fs : List (String × Json)) (k : String) : Option Json :=
  (fs.find? fun p => p.1 == k).map Prod.snd

/-- Read a JSON value as a number, if it is one. -/
def jsonAsNum : Json → Option ℚ
  | Json.num q => some q
  | _ => none

/-- Reading one element of the parsed locationHistory array with the
LocationData field types the component code assumes of it. -/
def decodeLocation : Json → Option LocationData
  | Json.obj fs =>
    match (jsonField fs "latitude").bind jsonAsNum,
          (jsonField fs "longitude").bind jsonAsNum,
          (jsonField fs "accuracy").bind jsonAsNum,
          (jsonField fs "timestamp").bind jsonAsNum with
    | some lat, some lng, some acc, some ts =>
      some { latitude := lat, longitude := lng, accuracy := acc, timestamp := ts
             altitude := (jsonField fs "altitude").bind jsonAsNum
             heading := (jsonField fs "heading").bind jsonAsNum
             speed := (jsonField fs "speed").bind jsonAsNum }
    | _, _, _, _ => none
  | _ => none

/-- Reading the whole parsed array elementwise. -/
def decodeLocationList : List Json → Option (List LocationData)
  | [] => some []
  | j :: js =>
    match decodeLocation j, decodeLocationList js with
    | some d, some ds => some (d :: ds)
    | _, _ => none

/-- The hydrate effect of LocationTracker.tsx (lines 57-68): the stored
string is JSON.parsed and installed as the history; here applied to the
parsed JSON value, typed at LocationData[] as the component assumes. -/
def hydrateLocations : Json → Option (List LocationData)
  | Json.arr xs => decodeLocationList xs
  | _ => none

/-- The persisted output for a buffer (LocationTracker.tsx lines 47-50):
the JSON value written to localStorage, always truncated by slice(-100)
before the write. -/
def persistedJson (buffer : List LocationData) : Json :=
  Json.arr ((sliceLast 100 buffer).map encodeLocation)

/-- The in-memory history append of LocationTracker.tsx (lines 41-45):
setLocationHistory(prev concatenated with the sample, then slice(-100)). -/
def appendToHistory (prev : List LocationData) (location : LocationData) : List LocationData :=
  sliceLast 100 (prev ++ [location])

/-- The state of the useGeolocation hook (interface UseGeolocationState). -/
structure UseGeolocationState where
  location : Option LocationData
  error : Option GeolocationError
  loading : Bool
  permission : Option String
  isSupported : Bool
  deriving DecidableEq

/-- The combined engine state: the hook state, the isWatching ref, the
GeolocationService watchId (as a Boolean activity flag) together with its
lastKnownPosition, and the LocationTracker history buffer. -/
structure TrackerState where
  hook : UseGeolocationState
  isWatching : Bool
  watchActive : Bool
  lastKnownPosition : Option LocationData
  locationHistory : List LocationData
  deriving DecidableEq

/-- Processing of one delivered watch sample: the watchPosition success
callback stores it as lastKnownPosition and calls the hook callback
(updateState with the location and loading false, src/hooks/useGeolocation.ts
lines 81-84), after which the LocationTracker effect appends it to the
history buffer.  The code consults no validity check, watch flag or
generation counter here. -/
def onWatchSample (st : TrackerState) (s : LocationData) : TrackerState :=
  { st with
    hook := { st.hook with location := some s, loading := false }
    lastKnownPosition := some s
    locationHistory := appendToHistory st.locationHistory s }

/-- useGeolocation.startWatching (lines 74-92): no-op when unsupported or
already watching; otherwise set loading, clear the error, open the
platform subscription and set the watching flag. -/
def startWatching (st : TrackerState) : TrackerState :=
  if !st.hook.isSupported || st.isWatching then st
  else
    { st with
      hook := { st.hook with loading := true, error := none }
      watchActive := true
      isWatching := true }

/-- useGeolocation.stopWatching (lines 94-100) composed with
GeolocationService.stopWatching (geolocation.ts lines 128-133): when the
watching flag is set, clearWatch the platform subscription, null the
watchId and clear the flags.  Nothing else changes; in particular no
generation counter exists. -/
def stopWatching (st : TrackerState) : TrackerState :=
  if st.isWatching then
    { st with
      hook := { st.hook with loading := false }
      watchActive := false
      isWatching := false }
  else st

/-- useGeolocation.getCurrentPosition (lines 51-72), with the outcome of
the underlying GeolocationService promise passed explicitly: unsupported
environments get a code-0 error and null; otherwise loading is set and the
error cleared, then the resolved sample is stored and returned, or the
rejected failure is caught, stored in the error field, and null is
returned.  The function is total: no failure escapes it. -/
def getCurrentPositionHook (st : UseGeolocationState)
    (res : Except GeolocationError LocationData) :
    UseGeolocationState × Option LocationData :=
  if !st.isSupported then
    ({ st with error := some ⟨0, "Geolocation is not supported by this browser"⟩ }, none)
  else
    let st1 := { st with loading := true, error := none }
    match res with
    | .ok location => ({ st1 with location := some location, loading := false }, some location)
    | .error e => ({ st1 with error := some e, loading := false }, none)

namespace GeolocationService

/-- GeolocationService.toRadians: degrees times pi over 180. -/
noncomputable def toRadians (degrees : ℝ) : ℝ := degrees * (Real.pi / 180)

/-- Math.atan2, by its standard piecewise definition over arctan (the
x = 0, y = 0 corner returns 0, as in JavaScript). -/
noncomputable def mathAtan2 (y x : ℝ) : ℝ :=
  if 0 < x then Real.arctan (y / x)
  else if x < 0 ∧ 0 ≤ y then Real.arctan (y / x) + Real.pi
  else if x < 0 ∧ y < 0 then Real.arctan (y / x) - Real.pi
  else if x = 0 ∧ 0 < y then Real.pi / 2
  else if x = 0 ∧ y < 0 then -(Real.pi / 2)
  else 0

/-- GeolocationService.calculateDistance (geolocation.ts lines 160-175):
the haversine formula with Earth radius R = 6371 km. -/
noncomputable def calculateDistance (lat1 lon1 lat2 lon2 : ℝ) : ℝ :=
  let R : ℝ := 6371
  let dLat := toRadians (lat2 - lat1)
  let dLon := toRadians (lon2 - lon1)
  let a := Real.sin (dLat / 2) * Real.sin (dLat / 2) +
    Real.cos (toRadians lat1) * Real.cos (toRadians lat2) *
    Real.sin (dLon / 2) * Real.sin (dLon / 2)
  let c := 2 * mathAtan2 (Real.sqrt a) (Real.sqrt (1 - a))
  R * c

end GeolocationService

/-- A concrete sample used by witnesses: the origin with zero accuracy. -/
def dummyLocation : LocationData :=
  { latitude := 0, longitude := 0, accuracy := 0, timestamp := 0
    altitude := none, heading := none, speed := none }

/-- A concrete sample at (37, -122) with the given timestamp, used to
build counterexample traces with distinguishable samples. -/
def traceSample (t : ℚ) : LocationData :=
  { latitude := 37, longitude := -122, accuracy := 5, timestamp := t
    altitude := none, heading := none, speed := none }

/-- An idle engine state with empty history, support present, nothing
stored: the state at session start before hydration finds any data. -/
def initialTrackerState : TrackerState :=
  { hook := { location := none, error := none, loading := false
              permission := some "granted", isSupported := true }
    isWatching := false
    watchActive := false
    lastKnownPosition := none
    locationHistory := [] }

section HistoryLemmas

/-- Taking the last n elements of a list never yields more than n. -/
theorem sliceLast_length_le (n : ℕ) (l : List α) : (sliceLast n l).length ≤ n := by
  simp only [sliceLast, List.length_drop]
  omega

/-- A list already within the bound is untouched by sliceLast. -/
theorem sliceLast_of_length_le (n : ℕ) (l : List α) (h : l.length ≤ n) :
    sliceLast n l = l := by
  simp only [sliceLast, Nat.sub_eq_zero_of_le h, List.drop_zero]

/-- Truncating, extending, and truncating again is the same as truncating
the full concatenation: the sliding window forgets only what it would have
forgotten anyway. -/
theorem sliceLast_append_sliceLast (n : ℕ) (x y : List α) :
    sliceLast n (sliceLast n x ++ y) = sliceLast n (x ++ y) := by
  simp only [sliceLast, List.length_append, List.length_drop,
    List.drop_append_eq_append_drop, List.drop_drop]
  have h1 : x.length - n + (x.length - (x.length - n) + y.length - n) =
      x.length + y.length - n := by omega
  have h2 : x.length - (x.length - n) + y.length - n - (x.length - (x.length - n)) =
      x.length + y.length - n - x.length := by omega
  rw [h1, h2]

/-- Folding the append effect over any sample sequence, starting from an
already-truncated buffer, is truncation of the concatenation. -/
theorem foldl_appendToHistory_sliceLast (ss : List LocationData) (b : List LocationData) :
    List.foldl appendToHistory (sliceLast 100 b) ss = sliceLast 100 (b ++ ss) := by
  induction ss generalizing b with
  | nil => simp
  | cons a t ih =>
    have step : appendToHistory (sliceLast 100 b) a = sliceLast 100 (b ++ [a]) := by
      simp only [appendToHistory]
      exact sliceLast_append_sliceLast 100 b [a]
    calc List.foldl appendToHistory (sliceLast 100 b) (a :: t)
        = List.foldl appendToHistory (sliceLast 100 (b ++ [a])) t := by
          rw [List.foldl_cons, step]
      _ = sliceLast 100 ((b ++ [a]) ++ t) := ih (b ++ [a])
      _ = sliceLast 100 (b ++ a :: t) := by simp

/-- Folding the append effect over a nonempty sample sequence from an
arbitrary initial buffer is truncation of the concatenation. -/
theorem foldl_appendToHistory_eq (init : List LocationData) (a : LocationData)
    (t : List LocationData) :
    List.foldl appendToHistory init (a :: t) = sliceLast 100 (init ++ a :: t) := by
  have step : appendToHistory init a = sliceLast 100 (init ++ [a]) := rfl
  calc List.foldl appendToHistory init (a :: t)
      = List.foldl appendToHistory (sliceLast 100 (init ++ [a])) t := by
        rw [List.foldl_cons, step]
    _ = sliceLast 100 ((init ++ [a]) ++ t) := foldl_appendToHistory_sliceLast t (init ++ [a])
    _ = sliceLast 100 (init ++ a :: t) := by simp

end HistoryLemmas

/-- Claim C2: for every initial history buffer and every sequence of N+k
appended samples (N = 100), each append leaves at most N samples, and
after all appends the buffer holds exactly the last N appended samples in
insertion order: the fold equals the suffix obtained by dropping the first
k appended samples, so the oldest are evicted first and nothing is
reordered or deduplicated. -/
theorem claim_C2_history_sliding_window (init ss : List LocationData) (k : ℕ)
    (hlen : ss.length = 100 + k) :
    (∀ (h : List LocationData) (loc : LocationData),
      (appendToHistory h loc).length ≤ 100) ∧
    List.foldl appendToHistory init ss = ss.drop k := by
  refine ⟨fun h loc => sliceLast_length_le 100 _, ?_⟩
  cases ss with
  | nil => simp only [List.length_nil] at hlen; omega
  | cons a t =>
    rw [foldl_appendToHistory_eq]
    simp only [sliceLast, List.length_append, List.drop_append_eq_append_drop]
    have hk : init.length + (a :: t).length - 100 = init.length + k := by
      rw [hlen]; omega
    rw [hk, List.drop_eq_nil_of_le (by omega), List.nil_append]
    congr 1
    omega

/-- Witness for C2 at a concrete input: one hundred copies of a fixed
sample appended to an empty buffer (k = 0) leave exactly those hundred
samples. -/
theorem claim_C2_history_sliding_window_witness :
    (List.replicate 100 dummyLocation).length = 100 + 0 ∧
    (∀ (h : List LocationData) (loc : LocationData),
      (appendToHistory h loc).length ≤ 100) ∧
    List.foldl appendToHistory [] (List.replicate 100 dummyLocation) =
      (List.replicate 100 dummyLocation).drop 0 :=
  ⟨by simp,
   (claim_C2_history_sliding_window [] (List.replicate 100 dummyLocation) 0 (by simp)).1,
   (claim_C2_history_sliding_window [] (List.replicate 100 dummyLocation) 0 (by simp)).2⟩

/-- Claim C1 counterexample: a delivered sample with latitude 95 fails
MapUtils.isValidCoordinate, yet delivering it to an idle engine with an
empty history appends it (the history becomes that one sample, so it is
not unchanged) and records no failure at all: the claim that such a sample
is rejected with an invalid-data failure is false on the code. -/
theorem claim_C1_counterexample :
    MapUtils.isValidCoordinate (JSNum.val 95) (JSNum.val 0) = false ∧
    (onWatchSample initialTrackerState
      { latitude := 95, longitude := 0, accuracy := 10, timestamp := 0
        altitude := none, heading := none, speed := none }).locationHistory =
      [{ latitude := 95, longitude := 0, accuracy := 10, timestamp := 0
         altitude := none, heading := none, speed := none }] ∧
    (onWatchSample initialTrackerState
      { latitude := 95, longitude := 0, accuracy := 10, timestamp := 0
        altitude := none, heading := none, speed := none }).hook.error = none :=
  ⟨by decide, rfl, rfl⟩

/-- Claim C1 amended: the engine performs no coordinate validation on delivered
samples: every delivered sample, whether or not it passes
MapUtils.isValidCoordinate, is appended to the history buffer by the
sliding-window append, and the recorded error is left unchanged (no
invalid-data failure is ever produced). -/
theorem claim_C1_amended_no_validation (st : TrackerState) (s : LocationData) :
    (onWatchSample st s).locationHistory = sliceLast 100 (st.locationHistory ++ [s]) ∧
    (onWatchSample st s).hook.error = st.hook.error :=
  ⟨rfl, rfl⟩

/-- Claim C3 counterexample: start watching, deliver three samples, stop
watching (which does cancel the platform subscription), then process a
fourth delivery that was already in flight: the engine has no generation
counter, so the fourth sample is appended and the history length is 4,
not 3 — the claim that the history stays at 3 is false on the code. -/
theorem claim_C3_counterexample :
    (stopWatching (onWatchSample (onWatchSample (onWatchSample
        (startWatching initialTrackerState) (traceSample 1)) (traceSample 2))
        (traceSample 3))).watchActive = false ∧
    (stopWatching (onWatchSample (onWatchSample (onWatchSample
        (startWatching initialTrackerState) (traceSample 1)) (traceSample 2))
        (traceSample 3))).locationHistory.length = 3 ∧
    (onWatchSample (stopWatching (onWatchSample (onWatchSample (onWatchSample
        (startWatching initialTrackerState) (traceSample 1)) (traceSample 2))
        (traceSample 3))) (traceSample 4)).locationHistory =
      [traceSample 1, traceSample 2, traceSample 3, traceSample 4] ∧
    (onWatchSample (stopWatching (onWatchSample (onWatchSample (onWatchSample
        (startWatching initialTrackerState) (traceSample 1)) (traceSample 2))
        (traceSample 3))) (traceSample 4)).locationHistory.length = 4 :=
  ⟨rfl, rfl, rfl, rfl⟩

/-- Claim C3 amended: stopWatching clears the watching flag and never touches
the history, but it installs no stale-delivery guard: a sample delivery
already in flight when stopWatching returns is still processed by the
unchanged callback and appended to the history. -/
theorem claim_C3_amended_no_stale_guard (st : TrackerState) (s : LocationData) :
    (stopWatching st).isWatching = false ∧
    (stopWatching st).locationHistory = st.locationHistory ∧
    (onWatchSample (stopWatching st) s).locationHistory =
      sliceLast 100 (st.locationHistory ++ [s]) := by
  cases hw : st.isWatching <;>
    simp [stopWatching, onWatchSample, appendToHistory, hw]

/-- Claim C5: when the environment is supported and the position source fails,
getCurrentPosition resolves rather than throwing: it returns null and
stores the failure in the error field, where the caller reads it. -/
theorem claim_C5_failure_resolves_null (st : UseGeolocationState)
    (e : GeolocationError) (hsup : st.isSupported = true) :
    (getCurrentPositionHook st (Except.error e)).2 = none ∧
    (getCurrentPositionHook st (Except.error e)).1.error = some e := by
  simp [getCurrentPositionHook, hsup]

/-- Witness for C5 at a concrete input: a timeout failure delivered to the
initial supported state resolves to null with the failure stored. -/
theorem claim_C5_failure_resolves_null_witness :
    initialTrackerState.hook.isSupported = true ∧
    ((getCurrentPositionHook initialTrackerState.hook
        (Except.error ⟨3, "Location request timed out. Please try again."⟩)).2 = none ∧
      (getCurrentPositionHook initialTrackerState.hook
        (Except.error ⟨3, "Location request timed out. Please try again."⟩)).1.error =
        some ⟨3, "Location request timed out. Please try again."⟩) :=
  ⟨rfl, claim_C5_failure_resolves_null initialTrackerState.hook
    ⟨3, "Location request timed out. Please try again."⟩ rfl⟩

/-- Decoding inverts encoding for a single sample, whichever of the
optional fields are present. -/
theorem decodeLocation_encodeLocation (d : LocationData) :
    decodeLocation (encodeLocation d) = some d := by
  rcases d with ⟨lat, lng, acc, ts, alt, hd, sp⟩
  rcases alt with _ | a <;> rcases hd with _ | h <;> rcases sp with _ | s <;> rfl

/-- Decoding inverts encoding elementwise on a whole buffer. -/
theorem decodeLocationList_map_encode (l : List LocationData) :
    decodeLocationList (l.map encodeLocation) = some l := by
  induction l with
  | nil => rfl
  | cons d t ih =>
    simp [List.map_cons, decodeLocationList, decodeLocation_encodeLocation, ih]

/-- Claim C4: for every buffer within capacity, hydrating the persisted output
of that buffer reproduces it exactly: persist followed by hydrate is the
identity on capacity-respecting buffers. -/
theorem claim_C4_persist_hydrate_roundtrip (S : List LocationData)
    (h : S.length ≤ 100) :
    hydrateLocations (persistedJson S) = some S := by
  simp only [persistedJson, sliceLast_of_length_le 100 S h, hydrateLocations]
  exact decodeLocationList_map_encode S

/-- Witness for C4 at a concrete input: a one-sample buffer survives the
round trip. -/
theorem claim_C4_persist_hydrate_roundtrip_witness :
    [dummyLocation].length ≤ 100 ∧
    hydrateLocations (persistedJson [dummyLocation]) = some [dummyLocation] :=
  ⟨by decide, claim_C4_persist_hydrate_roundtrip [dummyLocation] (by decide)⟩

/-- Claim C6: isValidCoordinate accepts exactly the pairs of non-NaN values
within latitude range [-90, 90] and longitude range [-180, 180]; the
boundary values are accepted and NaN in either position is rejected. -/
theorem claim_C6_validate_characterization (lat lng : JSNum) :
    (MapUtils.isValidCoordinate lat lng = true ↔
      ∃ a b : ℚ, lat = JSNum.val a ∧ lng = JSNum.val b ∧
        -90 ≤ a ∧ a ≤ 90 ∧ -180 ≤ b ∧ b ≤ 180) ∧
    MapUtils.isValidCoordinate (JSNum.val 90) (JSNum.val 180) = true ∧
    MapUtils.isValidCoordinate (JSNum.val (-90)) (JSNum.val (-180)) = true ∧
    MapUtils.isValidCoordinate JSNum.nan lng = false ∧
    MapUtils.isValidCoordinate lat JSNum.nan = false := by
  refine ⟨?_, by decide, by decide, ?_, ?_⟩
  · cases lat with
    | nan => simp [MapUtils.isValidCoordinate, JSNum.jsIsNaN]
    | val a =>
      cases lng with
      | nan => simp [MapUtils.isValidCoordinate, JSNum.jsIsNaN]
      | val b =>
        simp [MapUtils.isValidCoordinate, JSNum.jsIsNaN, JSNum.jsGe, JSNum.jsLe,
          and_assoc]
  · simp [MapUtils.isValidCoordinate, JSNum.jsIsNaN]
  · cases lat with
    | nan => simp [MapUtils.isValidCoordinate, JSNum.jsIsNaN]
    | val a => simp [MapUtils.isValidCoordinate, JSNum.jsIsNaN, JSNum.jsGe, JSNum.jsLe]

section BoundsLemmas

/-- The fold of the four-accumulator bounds step computes the four
per-axis folds independently. -/
theorem boundsFold_components (l : List LocationData) (acc : MapUtils.BoundsAcc) :
    l.foldl MapUtils.boundsStep acc =
      { minLat := l.foldl (fun m loc => min m loc.latitude) acc.minLat
        maxLat := l.foldl (fun m loc => max m loc.latitude) acc.maxLat
        minLng := l.foldl (fun m loc => min m loc.longitude) acc.minLng
        maxLng := l.foldl (fun m loc => max m loc.longitude) acc.maxLng } := by
  induction l generalizing acc with
  | nil => rfl
  | cons x t ih => simp [List.foldl_cons, MapUtils.boundsStep, ih]

/-- A min-fold is a lower bound for its seed and every element. -/
theorem foldl_min_le (l : List ℚ) (a : ℚ) :
    l.foldl min a ≤ a ∧ ∀ x ∈ l, l.foldl min a ≤ x := by
  induction l generalizing a with
  | nil => exact ⟨le_refl a, by simp⟩
  | cons x t ih =>
    refine ⟨(ih (min a x)).1.trans (min_le_left a x), ?_⟩
    intro y hy
    rcases List.mem_cons.mp hy with rfl | hy
    · exact (ih (min a y)).1.trans (min_le_right a y)
    · exact (ih (min a x)).2 y hy

/-- A min-fold is attained at the seed or at an element. -/
theorem foldl_min_mem (l : List ℚ) (a : ℚ) :
    l.foldl min a = a ∨ l.foldl min a ∈ l := by
  induction l generalizing a with
  | nil => exact Or.inl rfl
  | cons x t ih =>
    rw [List.foldl_cons]
    rcases ih (min a x) with h | h
    · rcases le_total a x with hax | hxa
      · rw [h, min_eq_left hax]; exact Or.inl rfl
      · rw [h, min_eq_right hxa]; exact Or.inr (List.mem_cons_self x t)
    · exact Or.inr (List.mem_cons_of_mem x h)

/-- A max-fold is an upper bound for its seed and every element. -/
theorem le_foldl_max (l : List ℚ) (a : ℚ) :
    a ≤ l.foldl max a ∧ ∀ x ∈ l, x ≤ l.foldl max a := by
  induction l generalizing a with
  | nil => exact ⟨le_refl a, by simp⟩
  | cons x t ih =>
    refine ⟨(le_max_left a x).trans (ih (max a x)).1, ?_⟩
    intro y hy
    rcases List.mem_cons.mp hy with rfl | hy
    · exact (le_max_right a y).trans (ih (max a y)).1
    · exact (ih (max a x)).2 y hy

/-- A max-fold is attained at the seed or at an element. -/
theorem foldl_max_mem (l : List ℚ) (a : ℚ) :
    l.foldl max a = a ∨ l.foldl max a ∈ l := by
  induction l generalizing a with
  | nil => exact Or.inl rfl
  | cons x t ih =>
    rw [List.foldl_cons]
    rcases ih (max a x) with h | h
    · rcases le_total x a with hxa | hax
      · rw [h, max_eq_left hxa]; exact Or.inl rfl
      · rw [h, max_eq_right hax]; exact Or.inr (List.mem_cons_self x t)
    · exact Or.inr (List.mem_cons_of_mem x h)

/-- calculateBounds on a nonempty list, written with the four per-axis
folds exposed. -/
theorem calculateBounds_cons (p : LocationData) (l : List LocationData) :
    MapUtils.calculateBounds (p :: l) =
      { northEast := (((p :: l).map LocationData.latitude).foldl max p.latitude,
                      ((p :: l).map LocationData.longitude).foldl max p.longitude)
        southWest := (((p :: l).map LocationData.latitude).foldl min p.latitude,
                      ((p :: l).map LocationData.longitude).foldl min p.longitude)
        center := ((((p :: l).map LocationData.latitude).foldl min p.latitude +
                    ((p :: l).map LocationData.latitude).foldl max p.latitude) / 2,
                   (((p :: l).map LocationData.longitude).foldl min p.longitude +
                    ((p :: l).map LocationData.longitude).foldl max p.longitude) / 2) } := by
  simp [MapUtils.calculateBounds, boundsFold_components, List.foldl_map,
    MapUtils.boundsStep, min_self, max_self]

end BoundsLemmas

/-- Claim C7: calculateBounds returns the all-zero box on the empty list, the
all-p box on a singleton, and in general the independent per-axis minima
and maxima as southWest/northEast (each bound attained by some sample)
with center the arithmetic midpoint of the per-axis extremes. -/
theorem claim_C7_bounding_box (p : LocationData) (l : List LocationData) :
    MapUtils.calculateBounds [] =
      { northEast := (0, 0), southWest := (0, 0), center := (0, 0) } ∧
    MapUtils.calculateBounds [p] =
      { northEast := (p.latitude, p.longitude)
        southWest := (p.latitude, p.longitude)
        center := (p.latitude, p.longitude) } ∧
    (∀ q ∈ p :: l,
      (MapUtils.calculateBounds (p :: l)).southWest.1 ≤ q.latitude ∧
      q.latitude ≤ (MapUtils.calculateBounds (p :: l)).northEast.1 ∧
      (MapUtils.calculateBounds (p :: l)).southWest.2 ≤ q.longitude ∧
      q.longitude ≤ (MapUtils.calculateBounds (p :: l)).northEast.2) ∧
    (∃ q ∈ p :: l, q.latitude = (MapUtils.calculateBounds (p :: l)).southWest.1) ∧
    (∃ q ∈ p :: l, q.latitude = (MapUtils.calculateBounds (p :: l)).northEast.1) ∧
    (∃ q ∈ p :: l, q.longitude = (MapUtils.calculateBounds (p :: l)).southWest.2) ∧
    (∃ q ∈ p :: l, q.longitude = (MapUtils.calculateBounds (p :: l)).northEast.2) ∧
    (MapUtils.calculateBounds (p :: l)).center =
      (((MapUtils.calculateBounds (p :: l)).southWest.1 +
        (MapUtils.calculateBounds (p :: l)).northEast.1) / 2,
       ((MapUtils.calculateBounds (p :: l)).southWest.2 +
        (MapUtils.calculateBounds (p :: l)).northEast.2) / 2) := by
  refine ⟨rfl, ?_, ?_, ?_, ?_, ?_, ?_, ?_⟩
  · rw [calculateBounds_cons]
    simp only [List.map_cons, List.map_nil, List.foldl_cons, List.foldl_nil,
      min_self, max_self]
    simp [MapUtils.Bounds.mk.injEq, Prod.ext_iff]
  · intro q hq
    rw [calculateBounds_cons]
    exact ⟨(foldl_min_le _ _).2 q.latitude (List.mem_map_of_mem _ hq),
      (le_foldl_max _ _).2 q.latitude (List.mem_map_of_mem _ hq),
      (foldl_min_le _ _).2 q.longitude (List.mem_map_of_mem _ hq),
      (le_foldl_max _ _).2 q.longitude (List.mem_map_of_mem _ hq)⟩
  · rw [calculateBounds_cons]
    rcases foldl_min_mem ((p :: l).map LocationData.latitude) p.latitude with h | h
    · exact ⟨p, List.mem_cons_self p l, h.symm⟩
    · exact List.mem_map.mp h
  · rw [calculateBounds_cons]
    rcases foldl_max_mem ((p :: l).map LocationData.latitude) p.latitude with h | h
    · exact ⟨p, List.mem_cons_self p l, h.symm⟩
    · exact List.mem_map.mp h
  · rw [calculateBounds_cons]
    rcases foldl_min_mem ((p :: l).map LocationData.longitude) p.longitude with h | h
    · exact ⟨p, List.mem_cons_self p l, h.symm⟩
    · exact List.mem_map.mp h
  · rw [calculateBounds_cons]
    rcases foldl_max_mem ((p :: l).map LocationData.longitude) p.longitude with h | h
    · exact ⟨p, List.mem_cons_self p l, h.symm⟩
    · exact List.mem_map.mp h
  · rw [calculateBounds_cons]

/-- Witness for C7 at a concrete input: the general bound part applied to
the head of a concrete two-sample list. -/
theorem claim_C7_bounding_box_witness :
    traceSample 1 ∈ [traceSample 1, dummyLocation] ∧
    ((MapUtils.calculateBounds [traceSample 1, dummyLocation]).southWest.1 ≤
        (traceSample 1).latitude ∧
      (traceSample 1).latitude ≤
        (MapUtils.calculateBounds [traceSample 1, dummyLocation]).northEast.1 ∧
      (MapUtils.calculateBounds [traceSample 1, dummyLocation]).southWest.2 ≤
        (traceSample 1).longitude ∧
      (traceSample 1).longitude ≤
        (MapUtils.calculateBounds [traceSample 1, dummyLocation]).northEast.2) :=
  ⟨List.mem_cons_self _ _,
    (claim_C7_bounding_box (traceSample 1) [dummyLocation]).2.2.1 (traceSample 1)
      (List.mem_cons_self _ _)⟩

/-- Claim C8: the embedded haversine distance (Earth radius 6371 km) vanishes
on identical points and is symmetric in its two points. -/
theorem claim_C8_haversine_identities (lat1 lon1 lat2 lon2 : ℝ) :
    GeolocationService.calculateDistance lat1 lon1 lat1 lon1 = 0 ∧
    GeolocationService.calculateDistance lat1 lon1 lat2 lon2 =
      GeolocationService.calculateDistance lat2 lon2 lat1 lon1 := by
  constructor
  · norm_num [GeolocationService.calculateDistance, GeolocationService.toRadians,
      GeolocationService.mathAtan2, Real.arctan_zero]
  · have sin_sw : ∀ x y : ℝ,
        Real.sin (GeolocationService.toRadians (x - y) / 2) =
          -Real.sin (GeolocationService.toRadians (y - x) / 2) := by
      intro x y
      have h : GeolocationService.toRadians (x - y) =
          -(GeolocationService.toRadians (y - x)) := by
        simp only [GeolocationService.toRadians]
        ring
      rw [h, neg_div, Real.sin_neg]
    simp only [GeolocationService.calculateDistance]
    rw [sin_sw lat1 lat2, sin_sw lon1 lon2]
    ring_nf

section ShoelaceLemmas

/-- An accumulating fold over an index range is its seed plus the sum of
the per-index contributions. -/
theorem foldl_range_add (g : ℕ → ℚ) (n : ℕ) (c : ℚ) :
    (List.range n).foldl (fun a i => a + g i) c = c + ∑ i ∈ Finset.range n, g i := by
  induction n generalizing c with
  | zero => simp
  | succ m ih =>
    rw [List.range_succ, List.foldl_append, ih, List.foldl_cons, List.foldl_nil,
      Finset.sum_range_succ]
    ring

/-- The sum of a function mapped over the zip of two equal-length lists is
the indexed sum over the common range. -/
theorem zip_map_sum_eq (f : LocationData × LocationData → ℚ) :
    ∀ (a b : List LocationData), a.length = b.length →
    ((a.zip b).map f).sum =
      ∑ i ∈ Finset.range a.length, f (a.getD i default, b.getD i default) := by
  intro a
  induction a with
  | nil =>
    intro b h
    cases b with
    | nil => simp
    | cons y ys => simp at h
  | cons x xs ih =>
    intro b h
    cases b with
    | nil => simp at h
    | cons y ys =>
      simp only [List.zip_cons_cons, List.map_cons, List.sum_cons, List.length_cons]
      rw [Finset.sum_range_succ']
      simp only [List.getD_cons_succ, List.getD_cons_zero]
      rw [ih ys (by simpa using h)]
      ring

/-- Indexing the one-step rotation reads the original list at the
successor index, modulo the length. -/
theorem getD_rotate_one (l : List LocationData) (i : ℕ) (h : i < l.length) :
    (l.rotate 1).getD i default = l.getD ((i + 1) % l.length) default := by
  have h1 : i < (l.rotate 1).length := by rwa [List.length_rotate]
  have h2 : (i + 1) % l.length < l.length := Nat.mod_lt _ (by omega)
  rw [List.getD_eq_getElem _ _ h1, List.getD_eq_getElem _ _ h2, List.getElem_rotate]

/-- The index loop of calculateAreaFromLocations computes exactly the
cyclic shoelace sum as worded by the spec. -/
theorem shoelaceLoop_eq_spec (l : List LocationData) :
    (List.range l.length).foldl
      (fun area i =>
        area + (l.getD i default).latitude *
            (l.getD ((i + 1) % l.length) default).longitude
          - (l.getD ((i + 1) % l.length) default).latitude *
            (l.getD i default).longitude)
      0 = shoelaceSumSpec l := by
  have hbody :
      (fun (area : ℚ) (i : ℕ) =>
        area + (l.getD i default).latitude *
            (l.getD ((i + 1) % l.length) default).longitude
          - (l.getD ((i + 1) % l.length) default).latitude *
            (l.getD i default).longitude) =
      (fun (area : ℚ) (i : ℕ) =>
        area + ((l.getD i default).latitude *
            (l.getD ((i + 1) % l.length) default).longitude
          - (l.getD ((i + 1) % l.length) default).latitude *
            (l.getD i default).longitude)) := by
    funext area i
    ring
  rw [hbody, foldl_range_add, zero_add, shoelaceSumSpec,
    zip_map_sum_eq _ l (l.rotate 1) (List.length_rotate l 1).symm]
  refine Finset.sum_congr rfl fun i hi => ?_
  rw [getD_rotate_one l i (Finset.mem_range.mp hi)]

/-- Zipping the one-step rotations of two equal-length lists is the
one-step rotation of their zip. -/
theorem zip_rotate_one :
    ∀ (a b : List LocationData), a.length = b.length →
      (a.rotate 1).zip (b.rotate 1) = (a.zip b).rotate 1 := by
  intro a b h
  cases a with
  | nil =>
    cases b with
    | nil => rfl
    | cons y ys => simp at h
  | cons x xs =>
    cases b with
    | nil => simp at h
    | cons y ys =>
      have hlen : xs.length = ys.length := by simpa using h
      rw [List.rotate_cons_succ, List.rotate_zero, List.rotate_cons_succ,
        List.rotate_zero, List.zip_cons_cons, List.rotate_cons_succ, List.rotate_zero]
      rw [List.zip_append hlen]
      rfl

/-- The cyclic shoelace sum is invariant under a one-step rotation of the
vertex cycle. -/
theorem shoelaceSumSpec_rotate_one (l : List LocationData) :
    shoelaceSumSpec (l.rotate 1) = shoelaceSumSpec l := by
  unfold shoelaceSumSpec
  rw [zip_rotate_one l (l.rotate 1) (List.length_rotate l 1).symm,
    List.map_rotate]
  exact (List.rotate_perm _ 1).sum_eq

/-- The cyclic shoelace sum is invariant under every rotation of the
vertex cycle. -/
theorem shoelaceSumSpec_rotate (n : ℕ) (l : List LocationData) :
    shoelaceSumSpec (l.rotate n) = shoelaceSumSpec l := by
  induction n generalizing l with
  | zero => rw [List.rotate_zero]
  | succ m ih =>
    rw [← List.rotate_rotate, shoelaceSumSpec_rotate_one, ih]

end ShoelaceLemmas

/-- Claim C9: the polygon-area function returns 0 for fewer than 3 points, and
otherwise half the absolute value of the cyclic shoelace sum applied to
the raw (latitude, longitude) pairs as planar coordinates. -/
theorem claim_C9_shoelace_area (l : List LocationData) :
    (l.length < 3 → MapUtils.calculateAreaFromLocations l = 0) ∧
    (3 ≤ l.length →
      MapUtils.calculateAreaFromLocations l = |shoelaceSumSpec l| / 2) := by
  constructor
  · intro h
    simp [MapUtils.calculateAreaFromLocations, h]
  · intro h
    have hnot : ¬ l.length < 3 := by omega
    simp only [MapUtils.calculateAreaFromLocations, if_neg hnot]
    rw [shoelaceLoop_eq_spec]

/-- Witness for C9 at concrete inputs: a single point yields area 0, and
a concrete triangle yields half the absolute shoelace sum. -/
theorem claim_C9_shoelace_area_witness :
    ([dummyLocation].length < 3 ∧
      MapUtils.calculateAreaFromLocations [dummyLocation] = 0) ∧
    (3 ≤ [traceSample 1, traceSample 2, traceSample 3].length ∧
      MapUtils.calculateAreaFromLocations [traceSample 1, traceSample 2, traceSample 3] =
        |shoelaceSumSpec [traceSample 1, traceSample 2, traceSample 3]| / 2) :=
  ⟨⟨by decide, (claim_C9_shoelace_area [dummyLocation]).1 (by decide)⟩,
   ⟨by decide,
    (claim_C9_shoelace_area [traceSample 1, traceSample 2, traceSample 3]).2 (by decide)⟩⟩

/-- Claim C10: the polygon-area function is nonnegative and invariant under
cyclic rotation of the input list. -/
theorem claim_C10_area_nonneg_rotation_invariant (l : List LocationData) (n : ℕ) :
    0 ≤ MapUtils.calculateAreaFromLocations l ∧
    MapUtils.calculateAreaFromLocations (l.rotate n) =
      MapUtils.calculateAreaFromLocations l := by
  constructor
  · by_cases h : l.length < 3
    · simp [MapUtils.calculateAreaFromLocations, h]
    · simp only [MapUtils.calculateAreaFromLocations, if_neg h]
      exact div_nonneg (abs_nonneg _) (by norm_num)
  · have hlen : (l.rotate n).length = l.length := List.length_rotate l n
    by_cases h : l.length < 3
    · have h2 : (l.rotate n).length < 3 := by omega
      simp [MapUtils.calculateAreaFromLocations, h, h2]
    · have h2 : ¬ (l.rotate n).length < 3 := by omega
      simp only [MapUtils.calculateAreaFromLocations, if_neg h, if_neg h2]
      rw [shoelaceLoop_eq_spec, shoelaceLoop_eq_spec, shoelaceSumSpec_rotate]


